import Mathlib

/-!
Verification of the Flask live-transcription relay server
(`src/app.py`, with the socketio variant `src/app_socketio.py`).

The WebSocket handler `live_transcription` in `app.py` is embedded as pure
Lean functions: query-parameter extraction, the upstream connect call, the
Deepgram event handlers (`on_open`, `on_message`, `on_error`, `on_close`),
the client-receive main loop, and the cleanup block.  Event delivery and
the interleaving of the main loop with the stop flag is modelled as explicit
finite schedules.
-/

namespace LiveSTT

/-- `DEFAULT_MODEL` constant of `app.py` (line 38). -/
def DEFAULT_MODEL : String := "nova-3"

/-- `DEFAULT_LANGUAGE` constant of `app.py` (line 39). -/
def DEFAULT_LANGUAGE : String := "en"

/-- `request.args.get(key, default)`: Flask returns the first value bound to
`key` in the query string, or `default` when the key is absent. -/
def argsGet (args : List (String × String)) (key dflt : String) : String :=
  match args.find? (fun p => p.1 == key) with
  | some p => p.2
  | none => dflt

/-- The keyword arguments of the upstream connect call
`client.listen.v1.connect(model=model, language=language, smart_format=True)`
(`app.py` lines 165-170), i.e. the parameters that end up in the
upstream query string.  Only `model` and `language` are read from the
request; `smart_format` is hard-coded to `True`. -/
def upstreamQuery (args : List (String × String)) : List (String × String) :=
  [ ("model", argsGet args "model" DEFAULT_MODEL)
  , ("language", argsGet args "language" DEFAULT_LANGUAGE)
  , ("smart_format", "true") ]

/-- A client WebSocket upgrade request: its query arguments and the
subprotocol list it offered during negotiation. -/
structure WsRequest where
  args : List (String × String)
  subprotocols : List String
deriving Repr, DecidableEq

/-- Observable effects of the setup phase of `live_transcription`
(`app.py` lines 149-172): read the query args, construct the Deepgram
client, and attempt the upstream connection. -/
inductive SetupAction where
  | upstreamConnectAttempt (params : List (String × String))
  | closeConn (code : Nat)
deriving Repr, DecidableEq

/-- The setup phase of `live_transcription` (`app.py` lines 149-172).  The
handler logs the connection, reads `model` and `language` from
`request.args`, builds a `DeepgramClient` and immediately calls
`client.listen.v1.connect(...)`; no field of the request other than the
query args is consulted and no close is issued in this phase. -/
def setupPhase (req : WsRequest) : List SetupAction :=
  [SetupAction.upstreamConnectAttempt (upstreamQuery req.args)]

/-! ### JSON values and `json.loads`

The main loop parses client text frames with `json.loads` (`app.py`
line 305).  We embed the JSON fragment those control messages live in:
objects with string keys whose values are strings, integers, booleans,
`null`, or nested objects (no arrays, no floats, no string escapes). -/

inductive JVal where
  | jstr (s : String)
  | jnum (n : Int)
  | jbool (b : Bool)
  | jnull
  | jobj (fields : List (String × JVal))

/-- The double-quote character. -/
def quoteChar : Char := Char.ofNat 34

/-- The opening-brace character. -/
def lbraceChar : Char := Char.ofNat 123

/-- The closing-brace character. -/
def rbraceChar : Char := Char.ofNat 125

/-- JSON insignificant whitespace. -/
def isJsonWs (c : Char) : Bool :=
  c == ' ' || c == Char.ofNat 9 || c == Char.ofNat 10 || c == Char.ofNat 13

/-- Drop leading JSON whitespace. -/
def skipWs : List Char → List Char
  | [] => []
  | c :: cs => if isJsonWs c then skipWs cs else c :: cs

/-- Parse the body of a JSON string (after the opening quote) up to the
closing quote; escape sequences are not supported. -/
def parseStringBody : List Char → Option (List Char × List Char)
  | [] => none
  | c :: cs =>
    if c == quoteChar then some ([], cs)
    else
      match parseStringBody cs with
      | some (s, rest) => some (c :: s, rest)
      | none => none

/-- Split a leading run of decimal digits off the input. -/
def takeDigits : List Char → (List Char × List Char)
  | [] => ([], [])
  | c :: cs =>
    if c.isDigit then
      let (d, r) := takeDigits cs
      (c :: d, r)
    else ([], c :: cs)

/-- Decimal digits to a natural number. -/
def digitsToNat (ds : List Char) : Nat :=
  ds.foldl (fun acc c => acc * 10 + (c.toNat - 48)) 0

mutual

/-- Parse one JSON value, fuel-bounded. -/
def parseValue : Nat → List Char → Option (JVal × List Char)
  | 0, _ => none
  | Nat.succ fuel, input =>
    match skipWs input with
    | [] => none
    | c :: cs =>
      if c == quoteChar then
        match parseStringBody cs with
        | some (s, rest) => some (JVal.jstr (String.mk s), rest)
        | none => none
      else if c == lbraceChar then
        match skipWs cs with
        | [] => none
        | d :: ds =>
          if d == rbraceChar then some (JVal.jobj [], ds)
          else
            match parsePairs fuel (d :: ds) with
            | some (fs, rest) => some (JVal.jobj fs, rest)
            | none => none
      else if c == 't' then
        match cs with
        | 'r' :: 'u' :: 'e' :: rest => some (JVal.jbool true, rest)
        | _ => none
      else if c == 'f' then
        match cs with
        | 'a' :: 'l' :: 's' :: 'e' :: rest => some (JVal.jbool false, rest)
        | _ => none
      else if c == 'n' then
        match cs with
        | 'u' :: 'l' :: 'l' :: rest => some (JVal.jnull, rest)
        | _ => none
      else if c == '-' then
        match takeDigits cs with
        | ([], _) => none
        | (ds, rest) => some (JVal.jnum (-(digitsToNat ds : Int)), rest)
      else if c.isDigit then
        match takeDigits (c :: cs) with
        | (ds, rest) => some (JVal.jnum (digitsToNat ds : Int), rest)
      else none

/-- Parse a nonempty comma-separated sequence of `key: value` pairs
followed by the closing brace, fuel-bounded. -/
def parsePairs : Nat → List Char → Option (List (String × JVal) × List Char)
  | 0, _ => none
  | Nat.succ fuel, input =>
    match skipWs input with
    | [] => none
    | c :: cs =>
      if c == quoteChar then
        match parseStringBody cs with
        | some (k, afterKey) =>
          match skipWs afterKey with
          | ':' :: afterColon =>
            match parseValue fuel afterColon with
            | some (v, afterVal) =>
              match skipWs afterVal with
              | ',' :: afterComma =>
                match parsePairs fuel afterComma with
                | some (fs, rest) => some ((String.mk k, v) :: fs, rest)
                | none => none
              | d :: ds =>
                if d == rbraceChar then some ([(String.mk k, v)], ds) else none
              | [] => none
            | none => none
          | _ => none
        | none => none
      else none

end

/-- `json.loads(s)` over the embedded JSON fragment: parse one value and
require the remainder to be whitespace; `none` models `JSONDecodeError`. -/
def json_loads (s : String) : Option JVal :=
  match parseValue (s.length + 1) s.data with
  | some (v, rest) => if (skipWs rest).isEmpty then some v else none
  | none => none

/-- `message.get(key)` on the dict produced by `json.loads`: with duplicate
keys, `json.loads` keeps the last occurrence. -/
def dictGet (fields : List (String × JVal)) (key : String) : Option JVal :=
  match fields.reverse.find? (fun p => p.1 == key) with
  | some p => some p.2
  | none => none

/-! ### The client-receive main loop (`app.py` lines 285-321) -/

/-- A frame received from the client WebSocket. -/
inductive Frame where
  | binary (data : List Nat)
  | text (s : String)
deriving Repr, DecidableEq

/-- What handling one client text frame does (`app.py` lines 302-321). -/
inductive TextAction where
  | sendControl (ctype : String)
  | closeSession
  | dropped
deriving Repr, DecidableEq

/-- Dispatch of a client text frame (`app.py` lines 302-321): parse with
`json.loads`, read `message.get("type")`, and compare against the three
control types.  A parse error, a non-dict value (where `.get` raises and
is caught at line 320), a missing or non-string `type`, and an
unrecognized `type` all fall through with the frame logged and dropped. -/
def handleText (s : String) : TextAction :=
  match json_loads s with
  | none => TextAction.dropped
  | some (JVal.jobj fields) =>
    match dictGet fields "type" with
    | some (JVal.jstr t) =>
      if t == "KeepAlive" then TextAction.sendControl "KeepAlive"
      else if t == "CloseStream" then TextAction.closeSession
      else if t == "Finalize" then TextAction.sendControl "Finalize"
      else TextAction.dropped
    | _ => TextAction.dropped
  | some _ => TextAction.dropped

/-- Environment for one iteration of the main loop: the value of
`stop_event.is_set()` sampled at the `while` guard, what `ws.receive`
returned (`none` on timeout or a closed socket), and whether
`send_media` would raise this iteration. -/
structure LoopInput where
  stop : Bool
  data : Option Frame
  sendFails : Bool
deriving Repr, DecidableEq

/-- A message sent on the upstream Deepgram connection:
`send_media(ListenV1MediaMessage(data))` or
`send_control(ListenV1ControlMessage(type=ctype))`. -/
inductive UpstreamMsg where
  | media (data : List Nat)
  | control (ctype : String)
deriving Repr, DecidableEq

/-- How the main loop ended. -/
inductive LoopEnd where
  | stopObserved
  | sendError
  | clientClosed
  | pending
deriving Repr, DecidableEq

/-- The result of running the main loop on a finite schedule: the messages
sent upstream, in order, and how the loop ended (`pending` when the
schedule ran out with the loop still live). -/
structure LoopResult where
  sent : List UpstreamMsg
  ended : LoopEnd
deriving Repr, DecidableEq

/-- The main loop of `live_transcription` (`app.py` lines 285-321), run on
a finite schedule of iteration environments.  Each iteration: if the stop
event is observed the loop exits; a `None` receive continues; a binary
frame is forwarded verbatim via `send_media` (a raised send error breaks
the loop, line 301); a text frame goes through `handleText` —
`sendControl` forwards a control message and continues, `closeSession`
breaks (line 314), `dropped` continues.  The stop recheck at line 291
after a `None` receive is reflected by the `stop` field of the next
schedule entry. -/
def mainLoop : List LoopInput → LoopResult
  | [] => ⟨[], LoopEnd.pending⟩
  | inp :: rest =>
    if inp.stop then ⟨[], LoopEnd.stopObserved⟩
    else
      match inp.data with
      | none => mainLoop rest
      | some (Frame.binary b) =>
        if inp.sendFails then ⟨[], LoopEnd.sendError⟩
        else
          let r := mainLoop rest
          ⟨UpstreamMsg.media b :: r.sent, r.ended⟩
      | some (Frame.text s) =>
        match handleText s with
        | TextAction.sendControl c =>
          let r := mainLoop rest
          ⟨UpstreamMsg.control c :: r.sent, r.ended⟩
        | TextAction.closeSession => ⟨[], LoopEnd.clientClosed⟩
        | TextAction.dropped => mainLoop rest

/-- The `timeout=1` (seconds) argument of `ws.receive` at `app.py`
line 287, the only blocking point of the loop. -/
def ws_receive_timeout_seconds : Nat := 1

/-- Worst-case latency, in milliseconds, between the stop event being set
and the main loop observing it: one full `ws.receive` timeout. -/
def stop_poll_latency_ms : Nat := ws_receive_timeout_seconds * 1000

/-- A loop iteration that delivers one client binary frame with the stop
event unset and a healthy upstream send. -/
def binaryInput (b : List Nat) : LoopInput :=
  { stop := false, data := some (Frame.binary b), sendFails := false }

/-- The client text frame `{"type":"Finalize"}`. -/
def finalizeFrame : String :=
  "\x7b\x22type\x22:\x22Finalize\x22\x7d"

/-- The client text frame `{"type":"CloseStream"}`. -/
def closeStreamFrame : String :=
  "\x7b\x22type\x22:\x22CloseStream\x22\x7d"

/-- The client text frame `{"type":"KeepAlive"}`. -/
def keepAliveFrame : String :=
  "\x7b\x22type\x22:\x22KeepAlive\x22\x7d"

/-! ### Deepgram event handlers (`app.py` lines 175-270)

The SDK result objects are embedded with `Option` fields standing for the
`hasattr` guards the handlers use.  WebSocket sends to the client are
modelled as succeeding (the try/except wrappers the handlers put around
`ws.send` are not fault-injected; none of the properties below concern a
failing client send). -/

/-- A word entry `result.channel.alternatives[0].words[i]`. -/
structure DgWord where
  word : String
  start : Rat
  end_ : Rat
  confidence : Option Rat
deriving Repr, DecidableEq

/-- `result.channel.alternatives[0]`. -/
structure DgAlternative where
  transcript : String
  confidence : Option Rat
  words : List DgWord
deriving Repr, DecidableEq

/-- A transcript result (`hasattr(result, "channel")`). -/
structure DgTranscriptResult where
  alternatives0 : DgAlternative
  is_final : Option Bool
  speech_final : Option Bool
  duration : Option Rat
  start : Option Rat
deriving Repr, DecidableEq

/-- `result.model_info`. -/
structure DgModelInfo where
  name : String
  version : Option String
deriving Repr, DecidableEq

/-- A metadata result (no `channel` attribute but `request_id` present). -/
structure DgMetadataResult where
  request_id : String
  model_info : Option DgModelInfo
  created : Option String
deriving Repr, DecidableEq

/-- A message delivered by the upstream connection, as dispatched by the
`hasattr` chain in `on_message` (lines 193 and 235); `other` is a message
with neither `channel` nor `request_id`, for which nothing is sent. -/
inductive DgResult where
  | transcript (r : DgTranscriptResult)
  | metadata (m : DgMetadataResult)
  | other
deriving Repr, DecidableEq

/-- A JSON frame the server sends to the client.  `errorMsg code message`
stands for the dict built by `format_error_response`, whose inner error
type is always `"TranscriptionError"`. -/
inductive ClientMsg where
  | ready (message : String)
  | results (transcript : String) (is_final : Bool) (speech_final : Bool)
      (confidence : Option Rat) (words : Option (List DgWord))
      (duration : Option Rat) (start : Option Rat) (model : String) (language : String)
  | metadataMsg (request_id : String) (model_name : String)
      (model_version : Option String) (created : Option String)
  | errorMsg (code : String) (message : String)
deriving Repr, DecidableEq

/-- The `type` field of the JSON frame a `ClientMsg` serializes to. -/
def msgType : ClientMsg → String
  | ClientMsg.ready _ => "Ready"
  | ClientMsg.results .. => "Results"
  | ClientMsg.metadataMsg .. => "Metadata"
  | ClientMsg.errorMsg .. => "Error"

/-- `format_error_response(code, message)` (`app.py` lines 356-374). -/
def format_error_response (code message : String) : ClientMsg :=
  ClientMsg.errorMsg code message

/-- The dict sent by `on_open` (`app.py` lines 180-183):
`\x7b"type": "Ready", "message": "Ready to receive audio"\x7d`. -/
def ready_message : ClientMsg :=
  ClientMsg.ready "Ready to receive audio"

/-- `on_message` (`app.py` lines 189-250) as the list of frames it sends
for one delivered result: a transcript result produces one `Results` frame
when the transcript is nonempty (line 196) and nothing otherwise; the
`words` key is included only when the word list is truthy (line 209); a
metadata result always produces one `Metadata` frame; anything else
produces nothing. -/
def on_message (model language : String) : DgResult → List ClientMsg
  | DgResult.transcript r =>
    let alt := r.alternatives0
    if alt.transcript.length > 0 then
      [ClientMsg.results alt.transcript
        (r.is_final.getD false) (r.speech_final.getD false)
        alt.confidence
        (if alt.words.isEmpty then none else some alt.words)
        r.duration r.start model language]
    else []
  | DgResult.metadata m =>
    [ClientMsg.metadataMsg m.request_id
      (match m.model_info with
       | some mi => mi.name
       | none => model)
      (match m.model_info with
       | some mi => mi.version
       | none => none)
      m.created]
  | DgResult.other => []

/-- An event delivered by the upstream transport, in delivery order. -/
inductive DgEvent where
  | openEv
  | message (r : DgResult)
  | errorEv (e : String)
  | closeEv
deriving Repr, DecidableEq

/-- The frames the registered handler for one event sends to the client
(`app.py` lines 267-270): `on_open` sends the ready dict, `on_message`
dispatches the result, `on_error` sends a `CONNECTION_FAILED` error frame,
`on_close` sends nothing (it only sets the stop event). -/
def eventSends (model language : String) : DgEvent → List ClientMsg
  | DgEvent.openEv => [ready_message]
  | DgEvent.message r => on_message model language r
  | DgEvent.errorEv _ =>
    [format_error_response "CONNECTION_FAILED" "Deepgram connection error"]
  | DgEvent.closeEv => []

/-- Whether the event is the close event (`on_close` sets `stop_event`). -/
def isCloseEvent : DgEvent → Bool
  | DgEvent.closeEv => true
  | _ => false

/-- The upstream-to-client side of a session: the stop flag and the frames
sent to the client so far, in order. -/
structure EventState where
  stopSet : Bool
  sentToClient : List ClientMsg
deriving Repr, DecidableEq

/-- State before any upstream event is delivered. -/
def initialEventState : EventState := ⟨false, []⟩

/-- Effect of delivering one upstream event to the registered handlers. -/
def handleEvent (model language : String) (s : EventState) (e : DgEvent) : EventState :=
  { stopSet := s.stopSet || isCloseEvent e
  , sentToClient := s.sentToClient ++ eventSends model language e }

/-- Deliver a finite sequence of upstream events in order. -/
def runEvents (model language : String) (s : EventState) : List DgEvent → EventState
  | [] => s
  | e :: rest => runEvents model language (handleEvent model language s e) rest

/-- The frames the client receives over a whole session, for a given
upstream event delivery order. -/
def sessionOutputs (model language : String) (evs : List DgEvent) : List ClientMsg :=
  (runEvents model language initialEventState evs).sentToClient

/-! ### Teardown (`app.py` lines 331-350) -/

/-- The closable resources of a session, with transition counters recording
how often each one actually got closed. -/
structure SessionHandles where
  stopSet : Bool
  connFinished : Bool
  connCloseCount : Nat
  ctxExited : Bool
  ctxCloseCount : Nat
deriving Repr, DecidableEq

/-- Both connection handles still open, stop flag clear. -/
def initialHandles : SessionHandles :=
  ⟨false, false, 0, false, 0⟩

/-- `deepgram_connection.finish()`: closes the connection when it is still
open; on an already-finished connection there is no further closing
effect.  `raises` injects a transport failure, in which case the
connection stays open; the surrounding except clause swallows the exception either
way. -/
def finishConn (raises : Bool) (s : SessionHandles) : SessionHandles :=
  if s.connFinished then s
  else if raises then s
  else { s with connFinished := true, connCloseCount := s.connCloseCount + 1 }

/-- `deepgram_context.__exit__(None, None, None)`: same shape as
`finishConn` for the context-manager resource. -/
def exitCtx (raises : Bool) (s : SessionHandles) : SessionHandles :=
  if s.ctxExited then s
  else if raises then s
  else { s with ctxExited := true, ctxCloseCount := s.ctxCloseCount + 1 }

/-- Fault injection for one run of the cleanup block. -/
structure CleanupFaults where
  finishRaises : Bool
  exitRaises : Bool
deriving Repr, DecidableEq

/-- The `finally` block of `live_transcription` (`app.py` lines 331-350):
set the stop event, then `finish()` the connection and `__exit__` the
context manager, each inside its own try/except.  Returns the new state
and whether the cleanup itself raised — it never does, because every close
is individually guarded. -/
def cleanup (f : CleanupFaults) (s : SessionHandles) : SessionHandles × Bool :=
  let s1 := { s with stopSet := true }
  let s2 := finishConn f.finishRaises s1
  let s3 := exitCtx f.exitRaises s2
  (s3, false)

/-! ### Upstream-handle ownership (`app.py` lines 155-172 versus
`app_socketio.py` lines 29-31) -/

/-- Allocator of fresh upstream-connection handles: constructing a new
connection object yields a handle distinct from every earlier one. -/
structure AllocState where
  next : Nat
deriving Repr, DecidableEq

/-- Construct a new upstream connection object. -/
def newUpstreamConnection (a : AllocState) : Nat × AllocState :=
  (a.next, ⟨a.next + 1⟩)

/-- Per-request setup in `app.py` (lines 155-172): each invocation of the
WebSocket handler constructs its own `DeepgramClient` and enters its own
`client.listen.v1.connect(...)` context — a fresh connection local to the
call, held only in local variables of the handler. -/
def appSessionConnect (a : AllocState) : Nat × AllocState :=
  newUpstreamConnection a

/-- The upstream handles used by the first `n` client connections accepted
by `app.py`, in acceptance order. -/
def appSessionHandles : Nat → AllocState → List Nat
  | 0, _ => []
  | Nat.succ k, a =>
    let p := appSessionConnect a
    p.1 :: appSessionHandles k p.2

/-- `app_socketio.py` lines 29-31: `dg_connection = deepgram.listen.live.v("1")`
is a single module-level connection created once at import time. -/
def socketio_dg_connection : Nat :=
  (newUpstreamConnection ⟨0⟩).1

/-- The upstream handle `handle_audio_stream` (`app_socketio.py` lines
62-66) uses when serving a client: always the module-level
`dg_connection`, whatever the client is. -/
def socketioSessionHandle (_clientId : Nat) : Nat :=
  socketio_dg_connection

/-! ### Helper lemmas -/

/-- A string has length zero exactly when it is empty. -/
theorem string_length_eq_zero_iff (s : String) : s.length = 0 ↔ s = "" := by
  constructor
  · intro h
    cases s with
    | mk data =>
      cases data with
      | nil => rfl
      | cons c cs => simp [String.length] at h
  · intro h
    subst h
    rfl

/-- Delivering events appends the sends of each event, in delivery order. -/
theorem runEvents_sentToClient_eq (m l : String) :
    ∀ (evs : List DgEvent) (s : EventState),
      (runEvents m l s evs).sentToClient
        = s.sentToClient ++ evs.flatMap (eventSends m l) := by
  intro evs
  induction evs with
  | nil => intro s; simp [runEvents]
  | cons e rest ih =>
    intro s
    simp [runEvents, ih, handleEvent]

/-- The client receives exactly the per-event sends, concatenated in
delivery order. -/
theorem sessionOutputs_eq_flatMap (m l : String) (evs : List DgEvent) :
    sessionOutputs m l evs = evs.flatMap (eventSends m l) := by
  simp [sessionOutputs, runEvents_sentToClient_eq, initialEventState]

/-- `on_message` never emits the ready frame. -/
theorem ready_not_mem_on_message (m l : String) (r : DgResult) :
    ready_message ∉ on_message m l r := by
  cases r with
  | transcript t =>
    simp only [on_message]
    split
    · simp [ready_message]
    · simp
  | metadata md => simp [on_message, ready_message]
  | other => simp [on_message]

/-- The sends of one event contain the ready frame exactly when the event is
the open event. -/
theorem count_ready_eventSends (m l : String) (e : DgEvent) :
    (eventSends m l e).count ready_message
      = (if e = DgEvent.openEv then 1 else 0) := by
  cases e with
  | openEv => simp [eventSends]
  | message r =>
    rw [if_neg (by simp)]
    simpa using List.count_eq_zero.mpr (ready_not_mem_on_message m l r)
  | errorEv s => simp [eventSends, ready_message, format_error_response]
  | closeEv => simp [eventSends]

/-- The ready frame appears in the session outputs once per open event. -/
theorem count_ready_flatMap (m l : String) (evs : List DgEvent) :
    (evs.flatMap (eventSends m l)).count ready_message
      = evs.count DgEvent.openEv := by
  induction evs with
  | nil => rfl
  | cons e rest ih =>
    rw [List.flatMap_cons, List.count_append, count_ready_eventSends, ih,
      List.count_cons]
    by_cases he : e = DgEvent.openEv
    · subst he
      simp
      omega
    · simp [he]

/-- The handles handed out by `app.py` sessions are consecutive fresh
values from the allocator. -/
theorem appSessionHandles_eq_range (n : Nat) :
    ∀ a : AllocState,
      appSessionHandles n a = (List.range n).map (fun i => a.next + i) := by
  induction n with
  | zero => intro a; rfl
  | succ k ih =>
    intro a
    have h : (fun i => a.next + 1 + i) = fun i => a.next + Nat.succ i := by
      funext i; omega
    rw [List.range_succ_eq_map]
    simp only [appSessionHandles, appSessionConnect, newUpstreamConnection, ih,
      List.map_cons, List.map_map, Function.comp_def, Nat.add_zero]
    rw [h]

/-! ### The claims -/

/-- C1 (amended): the `/stt/stream` endpoint performs no session-token
validation at all.  Every connection — with an absent, expired, or
malformed token alike — proceeds straight to relay setup and an upstream
connection attempt; no close with code 4401 is ever issued, and the
behavior of the handler does not depend on the offered subprotocols. -/
theorem C1_corrected_no_token_gate (req : WsRequest) :
    setupPhase req = [SetupAction.upstreamConnectAttempt (upstreamQuery req.args)]
      ∧ SetupAction.closeConn 4401 ∉ setupPhase req
      ∧ ∀ sp : List String, setupPhase ⟨req.args, sp⟩ = setupPhase req := by
  refine ⟨rfl, ?_, fun sp => rfl⟩
  simp [setupPhase]

/-- C1 witness: a connection offering no subprotocol (hence no token). -/
theorem C1_witness_no_token_connection :
    SetupAction.closeConn 4401 ∉ setupPhase ⟨[], []⟩ :=
  (C1_corrected_no_token_gate ⟨[], []⟩).2.1

/-- C1 counterexample: a connection presenting no session token is not
rejected with close code 4401; instead the handler makes an upstream
connection attempt. -/
theorem C1_counterexample_untokened_connect :
    setupPhase ⟨[], []⟩
        = [SetupAction.upstreamConnectAttempt
            [("model", "nova-3"), ("language", "en"), ("smart_format", "true")]]
      ∧ SetupAction.closeConn 4401 ∉ setupPhase ⟨[], []⟩ := by
  decide

/-- C2 (amended): frames delivered by the upstream connection are
forwarded to the client in delivery order, but forwarding is not gated on
any readiness signal: the client receives exactly the per-event sends in
order, whether or not the open notification has occurred, and no readiness
timeout or setup abort exists. -/
theorem C2_corrected_order_without_readiness_gate (m l : String)
    (evs : List DgEvent) :
    sessionOutputs m l evs = evs.flatMap (eventSends m l) :=
  sessionOutputs_eq_flatMap m l evs

/-- C2 counterexample: a transcript result delivered before the open
event is forwarded to the client immediately — the `Results` frame
reaches the client before the ready notification, so nothing withholds
upstream frames until readiness. -/
theorem C2_counterexample_forward_before_ready :
    sessionOutputs "nova-3" "en"
        [DgEvent.message (DgResult.transcript ⟨⟨"hello", none, []⟩, none, none, none, none⟩),
         DgEvent.openEv]
      = [ClientMsg.results "hello" false false none none none none "nova-3" "en",
         ready_message] := by
  rfl

/-- C3: for any sequence of binary frames the client sends after session
establishment, the upstream connection receives exactly those frames via
`send_media`, in the same order, with byte-for-byte identical content,
and the loop keeps running. -/
theorem C3_binary_frames_passthrough_in_order (frames : List (List Nat)) :
    mainLoop (frames.map binaryInput)
      = ⟨frames.map UpstreamMsg.media, LoopEnd.pending⟩ := by
  induction frames with
  | nil => rfl
  | cons b rest ih => simp [mainLoop, binaryInput, ih]

/-- C4: running the cleanup block twice closes the Deepgram connection and
the connect context at most once each, neither run raises, the stop flag
ends set, and a failure while closing one resource does not prevent
closing the other. -/
theorem C4_teardown_idempotent_fault_tolerant :
    ∀ a b c d : Bool,
      (cleanup ⟨c, d⟩ (cleanup ⟨a, b⟩ initialHandles).1).1.connCloseCount ≤ 1
        ∧ (cleanup ⟨c, d⟩ (cleanup ⟨a, b⟩ initialHandles).1).1.ctxCloseCount ≤ 1
        ∧ (cleanup ⟨a, b⟩ initialHandles).2 = false
        ∧ (cleanup ⟨c, d⟩ (cleanup ⟨a, b⟩ initialHandles).1).2 = false
        ∧ (cleanup ⟨c, d⟩ (cleanup ⟨a, b⟩ initialHandles).1).1.stopSet = true
        ∧ (cleanup ⟨true, false⟩ initialHandles).1.ctxExited = true
        ∧ (cleanup ⟨false, true⟩ initialHandles).1.connFinished = true := by
  decide

/-- C5: the client text frame `{"type":"Finalize"}` is forwarded upstream
as a `Finalize` control message — not as audio — and the loop continues;
the frame `{"type":"CloseStream"}` sends nothing and breaks the loop for
graceful termination. -/
theorem C5_finalize_forwarded_closestream_closes :
    mainLoop [{ stop := false, data := some (Frame.text finalizeFrame), sendFails := false }]
        = ⟨[UpstreamMsg.control "Finalize"], LoopEnd.pending⟩
      ∧ handleText finalizeFrame = TextAction.sendControl "Finalize"
      ∧ mainLoop [{ stop := false, data := some (Frame.text closeStreamFrame), sendFails := false }]
        = ⟨[], LoopEnd.clientClosed⟩ := by
  decide

/-- C6 (amended): the endpoint reads only `model` and `language` from the
query string (defaults `nova-3` and `en`) and passes them through to the
upstream connect call together with a hard-coded `smart_format=true`; the
`encoding`, `sample_rate`, and `channels` parameters are neither accepted
nor given defaults in the upstream query. -/
theorem C6_corrected_model_language_only (args : List (String × String)) :
    (upstreamQuery args).lookup "model" = some (argsGet args "model" DEFAULT_MODEL)
      ∧ (upstreamQuery args).lookup "language" = some (argsGet args "language" DEFAULT_LANGUAGE)
      ∧ (upstreamQuery args).lookup "smart_format" = some "true"
      ∧ (upstreamQuery args).lookup "encoding" = none
      ∧ (upstreamQuery args).lookup "sample_rate" = none
      ∧ (upstreamQuery args).lookup "channels" = none := by
  refine ⟨rfl, rfl, rfl, rfl, rfl, rfl⟩

/-- C6 counterexample: a request supplying `sample_rate`, `encoding`, and
`channels` gets an upstream query containing none of them — they are not
passed through, and no `linear16`/`16000`/`1` defaults appear. -/
theorem C6_counterexample_rate_params_not_passed :
    upstreamQuery [("sample_rate", "8000"), ("encoding", "opus"), ("channels", "2")]
        = [("model", "nova-3"), ("language", "en"), ("smart_format", "true")]
      ∧ (upstreamQuery [("sample_rate", "8000")]).lookup "sample_rate" = none := by
  decide

/-- C7 (amended): the client-receive loop samples the stop signal once per
iteration and exits as soon as it observes it set, sending nothing more;
its blocking receive uses a 1-second timeout, so the observation latency
bound is 1000 ms, not 100 ms. -/
theorem C7_corrected_one_second_poll :
    ws_receive_timeout_seconds = 1 ∧ stop_poll_latency_ms = 1000
      ∧ ∀ (d : Option Frame) (f : Bool) (rest : List LoopInput),
          mainLoop ({ stop := true, data := d, sendFails := f } :: rest)
            = ⟨[], LoopEnd.stopObserved⟩ :=
  ⟨rfl, rfl, fun _ _ _ => rfl⟩

/-- C7 counterexample: the worst-case latency between the stop signal
being raised and the loop observing it is 1000 ms, which exceeds the
claimed 100 ms bound. -/
theorem C7_counterexample_latency_bound :
    stop_poll_latency_ms = 1000 ∧ ¬ stop_poll_latency_ms ≤ 100 := by
  decide

/-- C8 (amended): in `app.py` every accepted client connection constructs
its own upstream connection, so concurrent sessions hold pairwise distinct
handles; but in `app_socketio.py` the single module-level `dg_connection`
is used for every client, so all sessions of that variant share one
process-wide upstream handle. -/
theorem C8_corrected_app_exclusive_socketio_shared :
    (∀ (n : Nat) (a : AllocState), (appSessionHandles n a).Nodup)
      ∧ ∀ i j : Nat, socketioSessionHandle i = socketioSessionHandle j := by
  constructor
  · intro n a
    rw [appSessionHandles_eq_range]
    exact (List.nodup_range n).map fun i j h => by omega
  · intro i j
    rfl

/-- C8 counterexample: two distinct concurrently accepted socketio clients
use the same upstream connection handle. -/
theorem C8_counterexample_shared_socketio_handle :
    socketioSessionHandle 0 = socketioSessionHandle 1 ∧ (0 : Nat) ≠ 1 := by
  decide

/-- C9: on a session whose first upstream event is the open event (and
open fires once), the first frame the client receives is the JSON frame
`type: Ready, message: Ready to receive audio`, it is sent exactly once,
and its type lies outside the documented Results/Metadata/Error set. -/
theorem C9_ready_sent_first_and_once (m l : String) (evs : List DgEvent)
    (hhead : evs.head? = some DgEvent.openEv)
    (honce : evs.count DgEvent.openEv = 1) :
    (sessionOutputs m l evs).head? = some ready_message
      ∧ (sessionOutputs m l evs).count ready_message = 1
      ∧ msgType ready_message = "Ready"
      ∧ msgType ready_message ∉ ["Results", "Metadata", "Error"] := by
  obtain ⟨rest, hevs⟩ : ∃ rest, evs = DgEvent.openEv :: rest := by
    cases evs with
    | nil => simp at hhead
    | cons e rest =>
      simp only [List.head?_cons, Option.some.injEq] at hhead
      exact ⟨rest, by rw [hhead]⟩
  subst hevs
  refine ⟨?_, ?_, rfl, by simp [msgType, ready_message]⟩
  · rw [sessionOutputs_eq_flatMap, List.flatMap_cons]
    rfl
  · rw [sessionOutputs_eq_flatMap, count_ready_flatMap]
    exact honce

/-- C9 witness: the one-event session consisting of the open event. -/
theorem C9_witness_concrete_session :
    (sessionOutputs "nova-3" "en" [DgEvent.openEv]).head? = some ready_message
      ∧ (sessionOutputs "nova-3" "en" [DgEvent.openEv]).count ready_message = 1
      ∧ msgType ready_message = "Ready"
      ∧ msgType ready_message ∉ ["Results", "Metadata", "Error"] :=
  C9_ready_sent_first_and_once "nova-3" "en" [DgEvent.openEv] (by decide) (by decide)

/-- C10: a transcript result from the upstream connection produces a frame
for the client exactly when its transcript is nonempty — empty-transcript
results are filtered out — and every frame it does produce is a `Results`
frame. -/
theorem C10_results_iff_nonempty_transcript (m l : String) (r : DgTranscriptResult) :
    (on_message m l (DgResult.transcript r) = [] ↔ r.alternatives0.transcript = "")
      ∧ (on_message m l (DgResult.transcript r)).all
          (fun msg => msgType msg == "Results") = true := by
  constructor
  · simp only [on_message]
    rcases Nat.eq_zero_or_pos (r.alternatives0.transcript.length) with hz | hp
    · rw [if_neg (by omega)]
      simp [(string_length_eq_zero_iff _).mp hz]
    · rw [if_pos hp]
      constructor
      · intro h
        simp at h
      · intro h
        rw [h] at hp
        simp at hp
  · simp only [on_message]
    split
    · rfl
    · rfl

/-- C10 witness: an empty-transcript result is dropped entirely. -/
theorem C10_witness_empty_transcript_dropped :
    on_message "nova-3" "en"
        (DgResult.transcript ⟨⟨"", none, []⟩, none, none, none, none⟩) = [] :=
  (C10_results_iff_nonempty_transcript "nova-3" "en" _).1.mpr rfl

end LiveSTT
